import Mathlib

/-!
Shallow embedding of the `ProfitSharing` class of the ftt_backend repository
(file `src/unnamed/part_009`).  JavaScript numbers are modelled as rationals
(`ℚ`); `Math.round` is modelled as `⌊x + 1/2⌋`, matching the JavaScript
round-half-towards-positive-infinity behaviour.  Database access
(`Season.findById`, the donation aggregation pipeline) is modelled by passing
the resolved season snapshot and the eligible donor pool as explicit inputs.
`Math.random()` draws inside the Fisher–Yates shuffle are modelled by an
oracle `(i : ℕ) → Fin (i + 1)` giving, for each loop index `i`, the value
`Math.floor(Math.random() * (i + 1))`, which always lies in `{0, …, i}`.
-/

namespace ProfitSharing

/-- JavaScript `Math.round`: rounds half towards positive infinity.
`Rat.floor` (rather than the `⌊⌋` notation) keeps the definition kernel-computable. -/
def jsRound (q : ℚ) : ℤ := Rat.floor (q + 1/2)

/-- The ubiquitous source idiom `Math.round(x * 100) / 100`: round to 2 decimals. -/
def round2 (q : ℚ) : ℚ := (jsRound (q * 100) : ℚ) / 100

/-- `MULTIPLIERS.INITIAL` (1.8). -/
def MULTIPLIERS_INITIAL : ℚ := 18/10

/-- `MULTIPLIERS.FIRST` (0.1). -/
def MULTIPLIERS_FIRST : ℚ := 1/10

/-- `MULTIPLIERS.SECOND` (0.44). -/
def MULTIPLIERS_SECOND : ℚ := 44/100

/-- `MULTIPLIERS.FINAL` (0.63). -/
def MULTIPLIERS_FINAL : ℚ := 63/100

/-- `FINAL_MULTIPLIER`: product of the four stage multipliers. -/
def FINAL_MULTIPLIER : ℚ :=
  MULTIPLIERS_INITIAL * MULTIPLIERS_FIRST * MULTIPLIERS_SECOND * MULTIPLIERS_FINAL

/-- `MIN_DONATIONS`: minimum donations for donor eligibility. -/
def MIN_DONATIONS : ℕ := 5

/-- `SELECTED_DONORS_COUNT`: number of donors selected for profit sharing. -/
def SELECTED_DONORS_COUNT : ℕ := 2

/-- `VENDOR_SPLIT.AGENTS` (0.5). -/
def VENDOR_SPLIT_AGENTS : ℚ := 1/2

/-- `VENDOR_SPLIT.STAKEHOLDERS` (0.5). -/
def VENDOR_SPLIT_STAKEHOLDERS : ℚ := 1/2

/-- `AGENT_DISTRIBUTION.FREELANCING` (0.3949). -/
def AGENT_FREELANCING : ℚ := 3949/10000

/-- `AGENT_DISTRIBUTION.CORPORATE` (0.3050). -/
def AGENT_CORPORATE : ℚ := 3050/10000

/-- `AGENT_DISTRIBUTION.MAJOR_PER_MILLION` ($10,000 per $1,000,000 raised). -/
def AGENT_MAJOR_PER_MILLION : ℚ := 10000

/-- `STAKEHOLDER_DISTRIBUTION.R1` (0.05). -/
def STAKEHOLDER_R1 : ℚ := 5/100

/-- `STAKEHOLDER_DISTRIBUTION.PB` (0.15). -/
def STAKEHOLDER_PB : ℚ := 15/100

/-- `STAKEHOLDER_DISTRIBUTION.SF` (0.20). -/
def STAKEHOLDER_SF : ℚ := 20/100

/-- `STAKEHOLDER_DISTRIBUTION.BMG` (0.60). -/
def STAKEHOLDER_BMG : ℚ := 60/100

/-- Result of `calculateProfit`.  The `stepN` fields are the 2-decimal-rounded
display values of the `calculations.stepN.result` fields of the source (the
`formula` strings, which are pure display text, are omitted).
`effectiveRatePercent` models the numeric content of the source
`effectiveRate` string `"4.99%"`: the source computes
`Math.round(FINAL_MULTIPLIER * 10000) / 100` and appends a percent sign. -/
structure ProfitCalculation where
  totalRaised : ℚ
  step1 : ℚ
  step2 : ℚ
  step3 : ℚ
  step4 : ℚ
  finalProfit : ℚ
  effectiveRatePercent : ℚ
  deriving DecidableEq, Repr

/-- `calculateProfit(totalRaised)`: the four-stage multiplicative formula.
The intermediate values feed forward UNROUNDED; rounding happens only on the
reported fields. -/
def calculateProfit (totalRaised : ℚ) : ProfitCalculation :=
  let step1 := totalRaised * MULTIPLIERS_INITIAL
  let step2 := step1 * MULTIPLIERS_FIRST
  let step3 := step2 * MULTIPLIERS_SECOND
  let finalProfit := step3 * MULTIPLIERS_FINAL
  { totalRaised := totalRaised
    step1 := round2 step1
    step2 := round2 step2
    step3 := round2 step3
    step4 := round2 finalProfit
    finalProfit := round2 finalProfit
    effectiveRatePercent := (jsRound (FINAL_MULTIPLIER * 10000) : ℚ) / 100 }

/-- Modelled from the words of the spec for claim comparison: the cascaded-rounding
profit the spec describes, where the 2-decimal rounding of each stage is fed
into the next stage. -/
def cascadedFinalProfit (totalRaised : ℚ) : ℚ :=
  round2 (round2 (round2 (round2 (totalRaised * MULTIPLIERS_INITIAL)
    * MULTIPLIERS_FIRST) * MULTIPLIERS_SECOND) * MULTIPLIERS_FINAL)

/-- Shared shape of the `verification` objects of the two sub-distributions:
`{ totalAllocated, matches }`. -/
structure Verification where
  totalAllocated : ℚ
  «matches» : Bool
  deriving DecidableEq, Repr

/-- One `{ amount, percentage }` leaf of a distribution breakdown (the constant
`description` strings of the source are omitted). -/
structure AllocEntry where
  amount : ℚ
  percentage : ℚ
  deriving DecidableEq, Repr

/-- Result of `calculateAgentDistribution`: the `breakdown` object is inlined
as the four `AllocEntry` fields (the `major.calculation` display sub-object is
omitted). -/
structure AgentDistribution where
  total : ℚ
  freelancing : AllocEntry
  corporate : AllocEntry
  major : AllocEntry
  miscellaneous : AllocEntry
  verification : Verification
  deriving DecidableEq, Repr

/-- The `calculatePercentage` closure of `calculateAgentDistribution`:
`agentsShare > 0 ? Math.round((amount / agentsShare) * 100 * 100) / 100 : 0`. -/
def calcPercentage (agentsShare amount : ℚ) : ℚ :=
  if 0 < agentsShare then (jsRound (amount / agentsShare * 100 * 100) : ℚ) / 100 else 0

/-- `calculateAgentDistribution(agentsShare, totalRaised)`. -/
def calculateAgentDistribution (agentsShare totalRaised : ℚ) : AgentDistribution :=
  let millionsRaised := totalRaised / 1000000
  let majorAgentShare := millionsRaised * AGENT_MAJOR_PER_MILLION
  let freelancingShare := agentsShare * AGENT_FREELANCING
  let corporateShare := agentsShare * AGENT_CORPORATE
  let allocatedTotal := freelancingShare + corporateShare + majorAgentShare
  let miscellaneousShare := max 0 (agentsShare - allocatedTotal)
  { total := round2 agentsShare
    freelancing := { amount := round2 freelancingShare, percentage := 3949/100 }
    corporate := { amount := round2 corporateShare, percentage := 3050/100 }
    major := { amount := round2 majorAgentShare
               percentage := calcPercentage agentsShare majorAgentShare }
    miscellaneous := { amount := round2 miscellaneousShare
                       percentage := calcPercentage agentsShare miscellaneousShare }
    verification :=
      { totalAllocated :=
          round2 (freelancingShare + corporateShare + majorAgentShare + miscellaneousShare)
        «matches» :=
          decide (|agentsShare -
            (freelancingShare + corporateShare + majorAgentShare + miscellaneousShare)|
              < 1/100) } }

/-- Result of `calculateStakeholderDistribution`, with the `breakdown` object
inlined as the four `AllocEntry` fields. -/
structure StakeholderDistribution where
  total : ℚ
  r1 : AllocEntry
  pb : AllocEntry
  sf : AllocEntry
  bmg : AllocEntry
  verification : Verification
  deriving DecidableEq, Repr

/-- `calculateStakeholderDistribution(stakeholdersShare)`. -/
def calculateStakeholderDistribution (stakeholdersShare : ℚ) : StakeholderDistribution :=
  let r1Share := stakeholdersShare * STAKEHOLDER_R1
  let pbShare := stakeholdersShare * STAKEHOLDER_PB
  let sfShare := stakeholdersShare * STAKEHOLDER_SF
  let bmgShare := stakeholdersShare * STAKEHOLDER_BMG
  { total := round2 stakeholdersShare
    r1 := { amount := round2 r1Share, percentage := 5 }
    pb := { amount := round2 pbShare, percentage := 15 }
    sf := { amount := round2 sfShare, percentage := 20 }
    bmg := { amount := round2 bmgShare, percentage := 60 }
    verification :=
      { totalAllocated := round2 (r1Share + pbShare + sfShare + bmgShare)
        «matches» :=
          decide (|stakeholdersShare - (r1Share + pbShare + sfShare + bmgShare)| < 1/100) } }

/-- The `vendors.agents` object of `distributeToVendors`. -/
structure AgentsVendor where
  total : ℚ
  percentage : ℚ
  distribution : AgentDistribution
  deriving DecidableEq, Repr

/-- The `vendors.stakeholders` object of `distributeToVendors`. -/
structure StakeholdersVendor where
  total : ℚ
  percentage : ℚ
  distribution : StakeholderDistribution
  deriving DecidableEq, Repr

/-- The `vendors` object of `distributeToVendors`. -/
structure Vendors where
  agents : AgentsVendor
  stakeholders : StakeholdersVendor
  deriving DecidableEq, Repr

/-- The top-level `verification` object of `distributeToVendors`:
`{ totalDistributed, matches }`. -/
structure TopVerification where
  totalDistributed : ℚ
  «matches» : Bool
  deriving DecidableEq, Repr

/-- Result of `distributeToVendors` (the `summary` object, which only copies
the `breakdown.*.amount` fields already present, is omitted). -/
structure VendorDistribution where
  totalProfit : ℚ
  vendors : Vendors
  verification : TopVerification
  deriving DecidableEq, Repr

/-- `distributeToVendors(totalProfit, totalRaised)`. -/
def distributeToVendors (totalProfit totalRaised : ℚ) : VendorDistribution :=
  let agentsShare := totalProfit * VENDOR_SPLIT_AGENTS
  let stakeholdersShare := totalProfit * VENDOR_SPLIT_STAKEHOLDERS
  { totalProfit := round2 totalProfit
    vendors :=
      { agents := { total := round2 agentsShare
                    percentage := VENDOR_SPLIT_AGENTS * 100
                    distribution := calculateAgentDistribution agentsShare totalRaised }
        stakeholders := { total := round2 stakeholdersShare
                          percentage := VENDOR_SPLIT_STAKEHOLDERS * 100
                          distribution := calculateStakeholderDistribution stakeholdersShare } }
    verification :=
      { totalDistributed := round2 (agentsShare + stakeholdersShare)
        «matches» := decide (|totalProfit - (agentsShare + stakeholdersShare)| < 1/100) } }

/-- Season snapshot as consumed by `checkSeasonEligibility` and
`executeProfitSharing`.  `goal` is `Option ℚ` because the source guards with
the JavaScript truthiness test `!season.goal` (a missing goal and a zero goal
behave alike there; a zero goal is also caught by `season.goal <= 0`). -/
structure Season where
  name : String
  goal : Option ℚ
  totalRaised : ℚ
  status : String
  donationCount : ℕ
  deriving DecidableEq, Repr

/-- The `details` object attached to an eligibility result; one shape per
branch of `checkSeasonEligibility`. -/
inductive EligibilityDetails where
  | empty
  | goalInfo (goal : Option ℚ)
  | notReached (goal raised remaining progressPercent : ℚ)
  | badStatus (status : String)
  | eligibleInfo (goal raised progressPercent : ℚ) (status : String)
  deriving DecidableEq, Repr

/-- Result of `checkSeasonEligibility`. -/
structure EligibilityResult where
  isEligible : Bool
  reason : String
  details : EligibilityDetails
  deriving DecidableEq, Repr

/-- `checkSeasonEligibility(season)`: the four gates, first failure wins.
The `Option Season` argument models the nullable `season` parameter. -/
def checkSeasonEligibility : Option Season → EligibilityResult
  | Option.none => { isEligible := false, reason := "Season not found", details := .empty }
  | some season =>
    match season.goal with
    | Option.none =>
      { isEligible := false
        reason := "Season has no goal set"
        details := .goalInfo Option.none }
    | some g =>
      if g ≤ 0 then
        { isEligible := false
          reason := "Season has no goal set"
          details := .goalInfo (some g) }
      else if season.totalRaised < g then
        { isEligible := false
          reason := "Season goal not yet reached"
          details := .notReached g season.totalRaised (g - season.totalRaised)
            (round2 (season.totalRaised / g * 100)) }
      else if season.status ≠ "completed" ∧ season.status ≠ "active" then
        { isEligible := false
          reason := "Season status is \x27" ++ season.status ++
            "\x27 (must be \x27active\x27 or \x27completed\x27)"
          details := .badStatus season.status }
      else
        { isEligible := true
          reason := "Season is eligible for profit sharing"
          details := .eligibleInfo g season.totalRaised 100 season.status }

/-- The loop body state of the Fisher–Yates shuffle: swap positions `i` and
`j` of the array (identity when an index is out of range, which the source
loop never produces). -/
def swapList {α : Type} (l : List α) (i j : ℕ) : List α :=
  match l.get? i, l.get? j with
  | some x, some y => (l.set i y).set j x
  | _, _ => l

/-- The `for (let i = length - 1; i > 0; i--)` Fisher–Yates loop of
`selectRandomDonors`.  `oracle i` models `Math.floor(Math.random() * (i + 1))`,
which always lies in `{0, …, i}`. -/
def fyLoop {α : Type} (oracle : (i : ℕ) → Fin (i + 1)) : List α → ℕ → List α
  | l, 0 => l
  | l, i + 1 => fyLoop oracle (swapList l (i + 1) (oracle (i + 1)).val) i

/-- `selectRandomDonors(eligibleDonors, count)`: return everything when the
pool is not larger than `count`, otherwise Fisher–Yates-shuffle a copy and
take the first `count` entries. -/
def selectRandomDonors {α : Type} (eligibleDonors : List α) (count : ℕ)
    (oracle : (i : ℕ) → Fin (i + 1)) : List α :=
  if eligibleDonors.length = 0 then []
  else if eligibleDonors.length ≤ count then eligibleDonors
  else (fyLoop oracle eligibleDonors (eligibleDonors.length - 1)).take count

/-- A heap of JavaScript arrays, used to make the mutation behaviour of
`selectRandomDonors` observable: references are indices, allocation appends. -/
def heapGet {α : Type} (h : List (List α)) (r : ℕ) : List α := (h.get? r).getD []

/-- Write one array cell of the heap. -/
def heapSet {α : Type} (h : List (List α)) (r : ℕ) (v : List α) : List (List α) :=
  h.set r v

/-- The Fisher–Yates loop acting on the heap: every iteration reads and
writes only the array at reference `r` (the `shuffled` copy). -/
def fyLoopHeap {α : Type} (oracle : (i : ℕ) → Fin (i + 1)) (r : ℕ) :
    List (List α) → ℕ → List (List α)
  | h, 0 => h
  | h, i + 1 =>
    fyLoopHeap oracle r
      (heapSet h r (swapList (heapGet h r) (i + 1) (oracle (i + 1)).val)) i

/-- `selectRandomDonors` with its heap effects made explicit.  `poolRef` is the
reference of the caller `eligibleDonors` array; the spread `[...eligibleDonors]`
allocates a fresh array (reference `h.length`), and all subsequent writes of the
shuffle go to that fresh reference.  Returns the selected list together with the
final heap. -/
def selectRandomDonorsHeap {α : Type} (h : List (List α)) (poolRef : ℕ) (count : ℕ)
    (oracle : (i : ℕ) → Fin (i + 1)) : List α × List (List α) :=
  let pool := heapGet h poolRef
  if pool.length = 0 then ([], h)
  else if pool.length ≤ count then
    (heapGet (h ++ [pool]) h.length, h ++ [pool])
  else
    let h1 := h ++ [pool]
    let shuffledRef := h.length
    let h2 := fyLoopHeap oracle shuffledRef h1 (pool.length - 1)
    ((heapGet h2 shuffledRef).take count, h2)

/-- Donor profile fields carried by an eligible-donor aggregation row. -/
structure DonorProfile where
  firstName : String
  lastName : String
  email : String
  donorType : String
  deriving DecidableEq, Repr

/-- One row of the eligible-donor aggregation (`getEligibleDonors`):
donor profile plus per-season contribution stats (the two donation-date
fields are omitted). -/
structure DonorStat where
  donor : DonorProfile
  donationCount : ℕ
  totalContributed : ℚ
  deriving DecidableEq, Repr

/-- One entry of the `eligibleDonors` list reported by the
`Insufficient eligible donors` failure. -/
structure ListedDonor where
  fullName : String
  email : String
  donationCount : ℕ
  deriving DecidableEq, Repr

/-- Result of `executeProfitSharing`, one constructor per return shape of the
source (success and the four soft failures reachable in this model; season
identity echo fields are omitted except where a claim mentions them). -/
inductive ExecResult where
  | seasonNotFound (error : String)
  | notEligible (error : String) (details : EligibilityDetails)
  | noEligibleDonors (error message : String) (totalDonations : ℕ)
  | insufficientDonors (error message : String) (eligibleDonors : List ListedDonor)
  | ok (eligibleCount : ℕ) (selected : List DonorStat)
       (profitCalculation : ProfitCalculation) (vendorDistribution : VendorDistribution)
  deriving DecidableEq, Repr

/-- The `success` flag of an orchestrator result. -/
def ExecResult.success : ExecResult → Bool
  | .ok _ _ _ _ => true
  | _ => false

/-- `executeProfitSharing(seasonId)`.  The database lookup of step 1 is
modelled by the already-resolved `seasonOpt`, and the aggregation of step 3 by
the already-resolved `eligibleDonors` pool. -/
def executeProfitSharing (seasonOpt : Option Season) (eligibleDonors : List DonorStat)
    (oracle : (i : ℕ) → Fin (i + 1)) : ExecResult :=
  match seasonOpt with
  | Option.none => .seasonNotFound "Season not found"
  | some season =>
    let eligibility := checkSeasonEligibility (some season)
    if eligibility.isEligible = false then
      .notEligible eligibility.reason eligibility.details
    else if eligibleDonors.length = 0 then
      .noEligibleDonors "No eligible donors found"
        ("No donors have made at least " ++ toString MIN_DONATIONS ++
          " donations to this season")
        season.donationCount
    else if eligibleDonors.length < SELECTED_DONORS_COUNT then
      .insufficientDonors "Insufficient eligible donors"
        ("Found only " ++ toString eligibleDonors.length ++
          " eligible donor(s), but " ++ toString SELECTED_DONORS_COUNT ++ " are required")
        (eligibleDonors.map fun d =>
          { fullName := d.donor.firstName ++ " " ++ d.donor.lastName
            email := d.donor.email
            donationCount := d.donationCount })
    else
      let selectedDonors := selectRandomDonors eligibleDonors SELECTED_DONORS_COUNT oracle
      let profitCalculation := calculateProfit season.totalRaised
      let vendorDistribution :=
        distributeToVendors profitCalculation.finalProfit season.totalRaised
      .ok eligibleDonors.length selectedDonors profitCalculation vendorDistribution

/-- The summand `r.profitCalculation?.finalProfit || 0` of
`getProfitSharingSummary` (the fallback 0 applies to every failure result;
on a finalProfit of exactly 0 the JavaScript `|| 0` also yields 0). -/
def ExecResult.finalProfitOrZero : ExecResult → ℚ
  | .ok _ _ pc _ => pc.finalProfit
  | _ => 0

/-- The summand `r.vendorDistribution?.vendors.agents.amount || 0` of
`getProfitSharingSummary`.  The `vendors.agents` object has the fields
`total`, `percentage` and `distribution` and NO `amount` field, so in
JavaScript this property access yields `undefined` and the whole expression
evaluates to the fallback `0` on every result, successful or not. -/
def ExecResult.agentsAmountOrZero : ExecResult → ℚ
  | _ => 0

/-- The summand `r.vendorDistribution?.vendors.stakeholders.amount || 0` of
`getProfitSharingSummary`: like the agents case, the `stakeholders` object has
no `amount` field, so the expression is `0` on every result. -/
def ExecResult.stakeholdersAmountOrZero : ExecResult → ℚ
  | _ => 0

/-- The `vendors.agents.total` field of a successful result (0 on failures):
this is the field that the summary field `totalToAgents` evidently intended to sum. -/
def ExecResult.agentsVendorTotal : ExecResult → ℚ
  | .ok _ _ _ vd => vd.vendors.agents.total
  | _ => 0

/-- The `vendors.stakeholders.total` field of a successful result (0 on
failures). -/
def ExecResult.stakeholdersVendorTotal : ExecResult → ℚ
  | .ok _ _ _ vd => vd.vendors.stakeholders.total
  | _ => 0

/-- The per-season inputs of one orchestrator run inside
`getProfitSharingSummary` (season snapshot lookup result, eligible donor
pool, and the random draws consumed by that run). -/
structure SeasonEnv where
  season : Option Season
  donors : List DonorStat
  oracle : (i : ℕ) → Fin (i + 1)

/-- The `summary` object of `getProfitSharingSummary`. -/
structure Summary where
  totalSeasons : ℕ
  successful : ℕ
  failed : ℕ
  totalProfit : ℚ
  totalToAgents : ℚ
  totalToStakeholders : ℚ
  deriving DecidableEq, Repr

/-- `getProfitSharingSummary(seasonIds)`: run the orchestrator per season,
split successes from failures, and sum.  Returns the `summary` object together
with the two partitions (`successfulDistributions` and the results behind
`failedDistributions`). -/
def getProfitSharingSummary (envs : List SeasonEnv) :
    Summary × List ExecResult × List ExecResult :=
  let results := envs.map fun e => executeProfitSharing e.season e.donors e.oracle
  let successfulR := results.filter fun r => r.success
  let failedR := results.filter fun r => !r.success
  let totalProfit := successfulR.foldl (fun sum r => sum + r.finalProfitOrZero) 0
  let totalToAgents := successfulR.foldl (fun sum r => sum + r.agentsAmountOrZero) 0
  let totalToStakeholders :=
    successfulR.foldl (fun sum r => sum + r.stakeholdersAmountOrZero) 0
  ({ totalSeasons := envs.length
     successful := successfulR.length
     failed := failedR.length
     totalProfit := round2 totalProfit
     totalToAgents := round2 totalToAgents
     totalToStakeholders := round2 totalToStakeholders },
   successfulR, failedR)

/-- A concrete stand-in for the random oracle: every `Math.floor(Math.random()
* (i + 1))` draw returns 0.  Used to instantiate theorems at concrete inputs. -/
def zeroOracle : (i : ℕ) → Fin (i + 1) := fun i => ⟨0, Nat.succ_pos i⟩

/-- A concrete season at its goal: goal 1,000,000, raised 1,000,000,
status completed. -/
def megaSeason : Season :=
  { name := "Mega", goal := some 1000000, totalRaised := 1000000,
    status := "completed", donationCount := 40 }

/-- A concrete eligible donor row. -/
def donorAda : DonorStat :=
  { donor := { firstName := "Ada", lastName := "L", email := "ada@x.io",
               donorType := "individual" }
    donationCount := 6, totalContributed := 900 }

/-- A second concrete eligible donor row. -/
def donorBob : DonorStat :=
  { donor := { firstName := "Bob", lastName := "M", email := "bob@x.io",
               donorType := "individual" }
    donationCount := 5, totalContributed := 700 }

/-- A concrete per-season environment on which the orchestrator succeeds. -/
def megaEnv : SeasonEnv :=
  { season := some megaSeason, donors := [donorAda, donorBob], oracle := zeroOracle }

/-- `jsRound` agrees with the mathematical floor of `q + 1/2`. -/
lemma jsRound_eq_floor (q : ℚ) : jsRound q = ⌊q + 1/2⌋ := rfl

/-- Upper bound of the rounding: `jsRound q ≤ q + 1/2`. -/
lemma jsRound_le (q : ℚ) : (jsRound q : ℚ) ≤ q + 1/2 := by
  rw [jsRound_eq_floor]; exact_mod_cast Int.floor_le _

/-- Lower bound of the rounding: `q + 1/2 < jsRound q + 1`. -/
lemma lt_jsRound_add_one (q : ℚ) : q + 1/2 < (jsRound q : ℚ) + 1 := by
  rw [jsRound_eq_floor]
  have := Int.lt_floor_add_one (q + 1/2)
  push_cast at this ⊢
  linarith

/-- Two-decimal rounding moves a value by at most half a cent. -/
lemma round2_err (q : ℚ) : |round2 q - q| ≤ 1/200 := by
  have h1 := jsRound_le (q * 100)
  have h2 := lt_jsRound_add_one (q * 100)
  rw [round2, abs_le]
  constructor <;> [linarith; linarith]

/-- Two-decimal rounding preserves non-negativity. -/
lemma round2_nonneg (q : ℚ) (h : 0 ≤ q) : 0 ≤ round2 q := by
  rw [round2, jsRound_eq_floor]
  have hfl : (0:ℤ) ≤ ⌊q * 100 + 1/2⌋ := Int.le_floor.mpr (by push_cast; linarith)
  have : (0:ℚ) ≤ (⌊q * 100 + 1/2⌋ : ℚ) := by exact_mod_cast hfl
  linarith

/-- Moving the `k`-th element of a list to the front while writing `a` into
its old position is a permutation of putting `a` in front. -/
lemma cons_set_perm {α : Type} (a : α) :
    ∀ (t : List α) (k : ℕ) (hk : k < t.length),
      (t.get ⟨k, hk⟩ :: t.set k a).Perm (a :: t) := by
  intro t
  induction t with
  | nil => intro k hk; simp at hk
  | cons b t ih =>
    intro k hk
    cases k with
    | zero => simpa using List.Perm.swap a b t
    | succ k =>
      have hk' : k < t.length := by simpa using hk
      have e : (b :: t).get ⟨k + 1, hk⟩ :: (b :: t).set (k + 1) a
          = t.get ⟨k, hk'⟩ :: b :: t.set k a := by simp
      rw [e]
      exact List.Perm.trans (List.Perm.swap _ _ _)
        (List.Perm.trans ((ih k hk').cons b) (List.Perm.swap _ _ _))

/-- Exchanging the entries at two valid positions is a permutation. -/
lemma set_set_perm {α : Type} :
    ∀ (l : List α) (i j : ℕ) (hi : i < l.length) (hj : j < l.length),
      ((l.set i (l.get ⟨j, hj⟩)).set j (l.get ⟨i, hi⟩)).Perm l := by
  intro l
  induction l with
  | nil => intro i j hi _; simp at hi
  | cons a t ih =>
    intro i j hi hj
    cases i with
    | zero =>
      cases j with
      | zero => simp
      | succ k =>
        have hk : k < t.length := by simpa using hj
        simpa using cons_set_perm a t k hk
    | succ m =>
      cases j with
      | zero =>
        have hm : m < t.length := by simpa using hi
        simpa using cons_set_perm a t m hm
      | succ k =>
        have hm : m < t.length := by simpa using hi
        have hk : k < t.length := by simpa using hj
        simpa using (ih m k hm hk).cons a

/-- Every `swapList` step is a permutation of its input. -/
lemma swapList_perm {α : Type} (l : List α) (i j : ℕ) : (swapList l i j).Perm l := by
  unfold swapList
  cases h1 : l.get? i with
  | none => cases l.get? j <;> exact List.Perm.refl l
  | some x =>
    cases h2 : l.get? j with
    | none => exact List.Perm.refl l
    | some y =>
      have hi : i < l.length := List.get?_eq_some.mp h1 |>.1
      have hj : j < l.length := List.get?_eq_some.mp h2 |>.1
      have hx : l.get ⟨i, hi⟩ = x := List.get?_eq_some.mp h1 |>.2
      have hy : l.get ⟨j, hj⟩ = y := List.get?_eq_some.mp h2 |>.2
      rw [← hx, ← hy]
      exact set_set_perm l i j hi hj

/-- The Fisher–Yates loop permutes its input list. -/
lemma fyLoop_perm {α : Type} (oracle : (i : ℕ) → Fin (i + 1)) :
    ∀ (n : ℕ) (l : List α), (fyLoop oracle l n).Perm l := by
  intro n
  induction n with
  | zero => intro l; exact List.Perm.refl l
  | succ i ih =>
    intro l
    exact (ih _).trans (swapList_perm l (i + 1) (oracle (i + 1)).val)

/-- The heap-level Fisher–Yates loop writes only reference `r`. -/
lemma fyLoopHeap_get_ne {α : Type} (oracle : (i : ℕ) → Fin (i + 1)) (r p : ℕ)
    (hne : r ≠ p) :
    ∀ (n : ℕ) (h : List (List α)), (fyLoopHeap oracle r h n).get? p = h.get? p := by
  intro n
  induction n with
  | zero => intro h; rfl
  | succ i ih =>
    intro h
    rw [fyLoopHeap, ih]
    exact List.get?_set_ne _ _ hne

/-- C1: For every totalProfit and every totalRaised ≥ 0, `distributeToVendors`
splits totalProfit 50/50: the agents vendor total and the stakeholders vendor
total are the 2-decimal roundings of the two half shares, their sum equals
totalProfit within 0.01, the top-level `verification.totalDistributed` equals
the 2-decimal rounding of agentsShare + stakeholdersShare, and the top-level
`verification.matches` flag is true. -/
theorem distributeToVendors_conservation (totalProfit totalRaised : ℚ)
    (hraised : 0 ≤ totalRaised) :
    |totalProfit - ((distributeToVendors totalProfit totalRaised).vendors.agents.total +
      (distributeToVendors totalProfit totalRaised).vendors.stakeholders.total)| ≤ 1/100 ∧
    (distributeToVendors totalProfit totalRaised).vendors.agents.total =
      round2 (totalProfit * VENDOR_SPLIT_AGENTS) ∧
    (distributeToVendors totalProfit totalRaised).vendors.stakeholders.total =
      round2 (totalProfit * VENDOR_SPLIT_STAKEHOLDERS) ∧
    (distributeToVendors totalProfit totalRaised).verification.totalDistributed =
      round2 (totalProfit * VENDOR_SPLIT_AGENTS + totalProfit * VENDOR_SPLIT_STAKEHOLDERS) ∧
    (distributeToVendors totalProfit totalRaised).verification.matches = true := by
  refine ⟨?_, rfl, rfl, rfl, ?_⟩
  · have e1 : (distributeToVendors totalProfit totalRaised).vendors.agents.total =
        round2 (totalProfit * VENDOR_SPLIT_AGENTS) := rfl
    have e2 : (distributeToVendors totalProfit totalRaised).vendors.stakeholders.total =
        round2 (totalProfit * VENDOR_SPLIT_STAKEHOLDERS) := rfl
    have h1 := round2_err (totalProfit * VENDOR_SPLIT_AGENTS)
    have h2 := round2_err (totalProfit * VENDOR_SPLIT_STAKEHOLDERS)
    rw [e1, e2]
    rw [abs_le] at h1 h2 ⊢
    unfold VENDOR_SPLIT_AGENTS at h1 ⊢
    unfold VENDOR_SPLIT_STAKEHOLDERS at h2 ⊢
    constructor <;> linarith
  · have em : (distributeToVendors totalProfit totalRaised).verification.matches =
        decide (|totalProfit -
          (totalProfit * VENDOR_SPLIT_AGENTS + totalProfit * VENDOR_SPLIT_STAKEHOLDERS)|
            < 1/100) := rfl
    have hz : totalProfit -
        (totalProfit * VENDOR_SPLIT_AGENTS + totalProfit * VENDOR_SPLIT_STAKEHOLDERS) = 0 := by
      unfold VENDOR_SPLIT_AGENTS VENDOR_SPLIT_STAKEHOLDERS; ring
    rw [em, decide_eq_true_iff, hz]
    norm_num

/-- C1 witness: the conservation theorem instantiated at totalProfit = 1,
totalRaised = 0. -/
theorem distributeToVendors_conservation_witness :
    (0:ℚ) ≤ 0 ∧
    (|1 - ((distributeToVendors 1 0).vendors.agents.total +
        (distributeToVendors 1 0).vendors.stakeholders.total)| ≤ (1:ℚ)/100 ∧
      (distributeToVendors 1 0).verification.matches = true) :=
  ⟨le_refl 0,
   (distributeToVendors_conservation 1 0 (le_refl 0)).1,
   (distributeToVendors_conservation 1 0 (le_refl 0)).2.2.2.2⟩

/-- C2 counterexample: at totalRaised = 1/2 the code computes finalProfit 0.02
(one rounding of the exact product at the end), while the claimed cascaded
re-rounding gives 0.03, so finalProfit does not equal the cascaded value. -/
theorem calculateProfit_not_cascaded_cx :
    (calculateProfit (1/2)).finalProfit = 1/50 ∧
    cascadedFinalProfit (1/2) = 3/100 ∧
    (calculateProfit (1/2)).finalProfit ≠ cascadedFinalProfit (1/2) := by
  refine ⟨?_, ?_, ?_⟩ <;>
    norm_num [calculateProfit, cascadedFinalProfit, round2, jsRound,
      MULTIPLIERS_INITIAL, MULTIPLIERS_FIRST, MULTIPLIERS_SECOND, MULTIPLIERS_FINAL,
      Rat.floor]

/-- C2 amended: `calculateProfit` rounds each displayed intermediate to 2
decimals but feeds the UNROUNDED intermediates into the next stage, so
finalProfit is the single end rounding of totalRaised × 1.8 × 0.1 × 0.44 ×
0.63, and each stepN field is the 2-decimal rounding of the exact product of
the first N multipliers. -/
theorem calculateProfit_rounds_once (x : ℚ) :
    (calculateProfit x).finalProfit =
      round2 (x * MULTIPLIERS_INITIAL * MULTIPLIERS_FIRST *
        MULTIPLIERS_SECOND * MULTIPLIERS_FINAL) ∧
    (calculateProfit x).step1 = round2 (x * MULTIPLIERS_INITIAL) ∧
    (calculateProfit x).step2 = round2 (x * MULTIPLIERS_INITIAL * MULTIPLIERS_FIRST) ∧
    (calculateProfit x).step3 =
      round2 (x * MULTIPLIERS_INITIAL * MULTIPLIERS_FIRST * MULTIPLIERS_SECOND) ∧
    (calculateProfit x).step4 = (calculateProfit x).finalProfit :=
  ⟨rfl, rfl, rfl, rfl, rfl⟩

/-- C5: In `calculateStakeholderDistribution` the four unrounded shares (5%,
15%, 20%, 60%) sum exactly to stakeholdersShare over rational arithmetic, the
`verification.matches` flag is always true, and `totalAllocated` is the
2-decimal rounding of stakeholdersShare itself.  The function takes no
totalRaised input, so the result is independent of totalRaised. -/
theorem calculateStakeholderDistribution_exact (s : ℚ) :
    s * STAKEHOLDER_R1 + s * STAKEHOLDER_PB + s * STAKEHOLDER_SF + s * STAKEHOLDER_BMG
      = s ∧
    (calculateStakeholderDistribution s).verification.matches = true ∧
    (calculateStakeholderDistribution s).verification.totalAllocated = round2 s := by
  have hsum : s * STAKEHOLDER_R1 + s * STAKEHOLDER_PB + s * STAKEHOLDER_SF +
      s * STAKEHOLDER_BMG = s := by
    unfold STAKEHOLDER_R1 STAKEHOLDER_PB STAKEHOLDER_SF STAKEHOLDER_BMG; ring
  refine ⟨hsum, ?_, ?_⟩
  · have em : (calculateStakeholderDistribution s).verification.matches =
        decide (|s - (s * STAKEHOLDER_R1 + s * STAKEHOLDER_PB + s * STAKEHOLDER_SF +
          s * STAKEHOLDER_BMG)| < 1/100) := rfl
    rw [em, decide_eq_true_iff, hsum]
    norm_num
  · have et : (calculateStakeholderDistribution s).verification.totalAllocated =
        round2 (s * STAKEHOLDER_R1 + s * STAKEHOLDER_PB + s * STAKEHOLDER_SF +
          s * STAKEHOLDER_BMG) := rfl
    rw [et, hsum]

/-- C6: `calculateProfit` is a pure function of totalRaised (two calls with
the same input give equal results), and at totalRaised = 1,000,000 the
finalProfit is exactly 49,896.00 with an effective rate of 4.99 percent
(rendered `"4.99%"` by the source). -/
theorem calculateProfit_deterministic :
    (∀ x : ℚ, calculateProfit x = calculateProfit x) ∧
    (calculateProfit 1000000).finalProfit = 49896 ∧
    (calculateProfit 1000000).effectiveRatePercent = 499/100 := by
  refine ⟨fun _ => rfl, ?_, ?_⟩ <;>
    norm_num [calculateProfit, round2, jsRound, FINAL_MULTIPLIER,
      MULTIPLIERS_INITIAL, MULTIPLIERS_FIRST, MULTIPLIERS_SECOND, MULTIPLIERS_FINAL,
      Rat.floor]

/-- C4: In `calculateAgentDistribution` the miscellaneous amount is
`max(0, agentsShare − (freelancing + corporate + major))`, hence never
negative; when the three computed shares total at most agentsShare the four
sub-shares sum exactly to agentsShare and `verification.matches` is true; and
when they exceed agentsShare by at least 0.01 the flag is false while
`totalAllocated` still reports the 2-decimal rounding of the actual
(over-)allocated sum, with no silent correction. -/
theorem calculateAgentDistribution_misc_clamp (agentsShare totalRaised : ℚ)
    (hraised : 0 ≤ totalRaised) :
    0 ≤ (calculateAgentDistribution agentsShare totalRaised).miscellaneous.amount ∧
    (agentsShare * AGENT_FREELANCING + agentsShare * AGENT_CORPORATE +
        totalRaised / 1000000 * AGENT_MAJOR_PER_MILLION ≤ agentsShare →
      agentsShare * AGENT_FREELANCING + agentsShare * AGENT_CORPORATE +
        totalRaised / 1000000 * AGENT_MAJOR_PER_MILLION +
        max 0 (agentsShare - (agentsShare * AGENT_FREELANCING +
          agentsShare * AGENT_CORPORATE +
          totalRaised / 1000000 * AGENT_MAJOR_PER_MILLION)) = agentsShare ∧
      (calculateAgentDistribution agentsShare totalRaised).verification.matches = true) ∧
    (agentsShare + 1/100 ≤ agentsShare * AGENT_FREELANCING +
        agentsShare * AGENT_CORPORATE +
        totalRaised / 1000000 * AGENT_MAJOR_PER_MILLION →
      (calculateAgentDistribution agentsShare totalRaised).verification.matches = false ∧
      (calculateAgentDistribution agentsShare totalRaised).verification.totalAllocated =
        round2 (agentsShare * AGENT_FREELANCING + agentsShare * AGENT_CORPORATE +
          totalRaised / 1000000 * AGENT_MAJOR_PER_MILLION)) := by
  have emisc : (calculateAgentDistribution agentsShare totalRaised).miscellaneous.amount =
      round2 (max 0 (agentsShare - (agentsShare * AGENT_FREELANCING +
        agentsShare * AGENT_CORPORATE +
        totalRaised / 1000000 * AGENT_MAJOR_PER_MILLION))) := rfl
  have em : (calculateAgentDistribution agentsShare totalRaised).verification.matches =
      decide (|agentsShare - (agentsShare * AGENT_FREELANCING +
        agentsShare * AGENT_CORPORATE +
        totalRaised / 1000000 * AGENT_MAJOR_PER_MILLION +
        max 0 (agentsShare - (agentsShare * AGENT_FREELANCING +
          agentsShare * AGENT_CORPORATE +
          totalRaised / 1000000 * AGENT_MAJOR_PER_MILLION)))| < 1/100) := rfl
  have et : (calculateAgentDistribution agentsShare totalRaised).verification.totalAllocated =
      round2 (agentsShare * AGENT_FREELANCING + agentsShare * AGENT_CORPORATE +
        totalRaised / 1000000 * AGENT_MAJOR_PER_MILLION +
        max 0 (agentsShare - (agentsShare * AGENT_FREELANCING +
          agentsShare * AGENT_CORPORATE +
          totalRaised / 1000000 * AGENT_MAJOR_PER_MILLION))) := rfl
  refine ⟨?_, ?_, ?_⟩
  · rw [emisc]
    exact round2_nonneg _ (le_max_left 0 _)
  · intro hle
    have hmax : max 0 (agentsShare - (agentsShare * AGENT_FREELANCING +
        agentsShare * AGENT_CORPORATE +
        totalRaised / 1000000 * AGENT_MAJOR_PER_MILLION)) =
        agentsShare - (agentsShare * AGENT_FREELANCING + agentsShare * AGENT_CORPORATE +
          totalRaised / 1000000 * AGENT_MAJOR_PER_MILLION) :=
      max_eq_right (sub_nonneg.mpr hle)
    constructor
    · rw [hmax]; ring
    · rw [em, decide_eq_true_iff, hmax]
      have hz : agentsShare - (agentsShare * AGENT_FREELANCING +
          agentsShare * AGENT_CORPORATE +
          totalRaised / 1000000 * AGENT_MAJOR_PER_MILLION +
          (agentsShare - (agentsShare * AGENT_FREELANCING + agentsShare * AGENT_CORPORATE +
            totalRaised / 1000000 * AGENT_MAJOR_PER_MILLION))) = 0 := by ring
      rw [hz]
      norm_num
  · intro hge
    have hmax : max 0 (agentsShare - (agentsShare * AGENT_FREELANCING +
        agentsShare * AGENT_CORPORATE +
        totalRaised / 1000000 * AGENT_MAJOR_PER_MILLION)) = 0 :=
      max_eq_left (by linarith)
    constructor
    · rw [em, hmax]
      rw [decide_eq_false_iff_not]
      intro habs
      rw [abs_of_nonpos (by linarith)] at habs
      linarith
    · rw [et, hmax]
      congr 1
      ring

/-- C4 witness: the clamp theorem instantiated at (agentsShare, totalRaised) =
(100, 0), where the three shares fit inside agentsShare, and at (0, 1000000),
where the major-agent flat amount exceeds agentsShare by well over 0.01. -/
theorem calculateAgentDistribution_misc_clamp_witness :
    (0:ℚ) ≤ 0 ∧
    (calculateAgentDistribution 100 0).verification.matches = true ∧
    (calculateAgentDistribution 0 1000000).verification.matches = false :=
  ⟨le_refl 0,
   ((calculateAgentDistribution_misc_clamp 100 0 (le_refl 0)).2.1
      (by norm_num [AGENT_FREELANCING, AGENT_CORPORATE, AGENT_MAJOR_PER_MILLION])).2,
   ((calculateAgentDistribution_misc_clamp 0 1000000 (by norm_num)).2.2
      (by norm_num [AGENT_FREELANCING, AGENT_CORPORATE, AGENT_MAJOR_PER_MILLION])).1⟩

/-- C7: `checkSeasonEligibility` applies its four rules in order, first
failure winning: a null season gives reason "Season not found"; a missing or
non-positive goal gives "Season has no goal set"; a positive goal with
totalRaised < goal gives an ineligible result with reason "Season goal not
yet reached" and details carrying the remaining amount and the 2-decimal
rounded progress percent; and totalRaised ≥ goal with status active or
completed gives isEligible = true. -/
theorem checkSeasonEligibility_rules (season : Season) (g : ℚ) :
    (checkSeasonEligibility Option.none).isEligible = false ∧
    (checkSeasonEligibility Option.none).reason = "Season not found" ∧
    (season.goal = Option.none ∨ (season.goal = some g ∧ g ≤ 0) →
      (checkSeasonEligibility (some season)).isEligible = false ∧
      (checkSeasonEligibility (some season)).reason = "Season has no goal set") ∧
    (season.goal = some g → 0 < g → season.totalRaised < g →
      checkSeasonEligibility (some season) =
        { isEligible := false
          reason := "Season goal not yet reached"
          details := .notReached g season.totalRaised (g - season.totalRaised)
            (round2 (season.totalRaised / g * 100)) }) ∧
    (season.goal = some g → 0 < g → g ≤ season.totalRaised →
      (season.status = "active" ∨ season.status = "completed") →
      (checkSeasonEligibility (some season)).isEligible = true) := by
  obtain ⟨nm, gl, tr, st, dc⟩ := season
  refine ⟨rfl, rfl, ?_, ?_, ?_⟩
  · rintro (hnone | ⟨hsome, hle⟩)
    · cases hnone
      exact ⟨rfl, rfl⟩
    · cases hsome
      constructor <;> simp [checkSeasonEligibility, hle]
  · intro hsome h0 hlt
    cases hsome
    simp only [checkSeasonEligibility]
    rw [if_neg (not_le.mpr h0), if_pos hlt]
  · intro hsome h0 hge hstatus
    cases hsome
    simp only [checkSeasonEligibility]
    rw [if_neg (not_le.mpr h0), if_neg (not_lt.mpr hge), if_neg ?_]
    intro h
    cases hstatus with
    | inl hs => exact h.2 hs
    | inr hs => exact h.1 hs

/-- C7 witness: the rules theorem instantiated at a season short of a goal of
100 (raised 40, active) and at a season past it (raised 150, completed). -/
theorem checkSeasonEligibility_rules_witness :
    (checkSeasonEligibility
      (some { name := "S", goal := some 100, totalRaised := 40,
              status := "active", donationCount := 3 })).reason =
        "Season goal not yet reached" ∧
    (checkSeasonEligibility
      (some { name := "S", goal := some 100, totalRaised := 150,
              status := "completed", donationCount := 3 })).isEligible = true :=
  ⟨by
    rw [(checkSeasonEligibility_rules
      { name := "S", goal := some 100, totalRaised := 40,
        status := "active", donationCount := 3 } 100).2.2.2.1
      rfl (by norm_num) (by norm_num)],
   (checkSeasonEligibility_rules
      { name := "S", goal := some 100, totalRaised := 150,
        status := "completed", donationCount := 3 } 100).2.2.2.2
      rfl (by norm_num) (by norm_num) (Or.inr rfl)⟩

/-- C9: `selectRandomDonors` returns `min n k` donors for a pool of size `n`
and requested count `k`; the result is always a prefix of a permutation of the
pool (so every returned element comes from the pool and no pool position is
used twice); when the pool is not larger than `k` it returns the entire pool
in its original order; and an empty pool yields an empty result. -/
theorem selectRandomDonors_spec {α : Type} (pool : List α) (count : ℕ)
    (oracle : (i : ℕ) → Fin (i + 1)) :
    (selectRandomDonors pool count oracle).length = min pool.length count ∧
    (∃ l : List α, l.Perm pool ∧ selectRandomDonors pool count oracle = l.take count) ∧
    (pool.length ≤ count → selectRandomDonors pool count oracle = pool) ∧
    (pool = [] → selectRandomDonors pool count oracle = []) := by
  unfold selectRandomDonors
  by_cases h0 : pool.length = 0
  · have hnil : pool = [] := List.length_eq_zero.mp h0
    subst hnil
    exact ⟨by simp, ⟨[], List.Perm.refl [], by simp⟩, fun _ => by simp, fun _ => by simp⟩
  · rw [if_neg h0]
    by_cases hle : pool.length ≤ count
    · rw [if_pos hle]
      refine ⟨(Nat.min_eq_left hle).symm, ⟨pool, List.Perm.refl pool,
        (List.take_of_length_le hle).symm⟩, fun _ => rfl, fun he => absurd (by simp [he]) h0⟩
    · rw [if_neg hle]
      have hperm := fyLoop_perm oracle (pool.length - 1) pool
      refine ⟨?_, ⟨_, hperm, rfl⟩, fun hc => absurd hc hle, fun he => absurd (by simp [he]) h0⟩
      rw [List.length_take, hperm.length_eq, Nat.min_comm]

/-- C9 witness: the selector specification instantiated at the two-element
pool [10, 20] with count 2 (2 ≤ 2, so the entire pool comes back) and at the
empty pool. -/
theorem selectRandomDonors_spec_witness :
    ([10, 20] : List ℕ).length ≤ 2 ∧
    selectRandomDonors ([10, 20] : List ℕ) 2 zeroOracle = [10, 20] ∧
    selectRandomDonors ([] : List ℕ) 2 zeroOracle = [] :=
  ⟨by decide,
   (selectRandomDonors_spec ([10, 20] : List ℕ) 2 zeroOracle).2.2.1 (by decide),
   (selectRandomDonors_spec ([] : List ℕ) 2 zeroOracle).2.2.2 rfl⟩

/-- C10: `selectRandomDonorsHeap` never writes the pool array of the caller: the
spread `[...eligibleDonors]` allocates a fresh array and the Fisher–Yates
swaps hit only that copy, so after the call the heap still holds the original
pool, element for element, at `poolRef`. -/
theorem selectRandomDonorsHeap_frame {α : Type} (h : List (List α)) (poolRef count : ℕ)
    (oracle : (i : ℕ) → Fin (i + 1)) (href : poolRef < h.length) :
    ((selectRandomDonorsHeap h poolRef count oracle).2).get? poolRef = h.get? poolRef ∧
    heapGet (selectRandomDonorsHeap h poolRef count oracle).2 poolRef =
      heapGet h poolRef := by
  have hfr : ((selectRandomDonorsHeap h poolRef count oracle).2).get? poolRef =
      h.get? poolRef := by
    simp only [selectRandomDonorsHeap]
    by_cases h0 : (heapGet h poolRef).length = 0
    · rw [if_pos h0]
    · rw [if_neg h0]
      by_cases hle : (heapGet h poolRef).length ≤ count
      · rw [if_pos hle]
        exact List.get?_append href
      · rw [if_neg hle]
        show ((fyLoopHeap oracle h.length (h ++ [heapGet h poolRef])
          ((heapGet h poolRef).length - 1))).get? poolRef = h.get? poolRef
        rw [fyLoopHeap_get_ne oracle h.length poolRef (Nat.ne_of_lt href).symm]
        exact List.get?_append href
  exact ⟨hfr, by unfold heapGet; rw [hfr]⟩

/-- C10 witness: the frame theorem instantiated at a one-array heap holding
[1, 2, 3], whose pool entry is unchanged by the call. -/
theorem selectRandomDonorsHeap_frame_witness :
    0 < ([[1, 2, 3]] : List (List ℕ)).length ∧
    ((selectRandomDonorsHeap ([[1, 2, 3]] : List (List ℕ)) 0 2 zeroOracle).2).get? 0 =
      ([[1, 2, 3]] : List (List ℕ)).get? 0 :=
  ⟨by decide,
   (selectRandomDonorsHeap_frame ([[1, 2, 3]] : List (List ℕ)) 0 2 zeroOracle
     (by decide)).1⟩

/-- C8: For a season that passes the eligibility check, `executeProfitSharing`
returns (not throws) structured failures for the two pool gates: an empty pool
gives success = false with error "No eligible donors found" and a message
stating the minimum-donations threshold (5); a non-empty pool smaller than
SELECTED_DONORS_COUNT (2) gives success = false with error "Insufficient
eligible donors" and the list of every eligible donor found, each with full
name, email, and donation count. -/
theorem executeProfitSharing_pool_failures (season : Season) (pool : List DonorStat)
    (oracle : (i : ℕ) → Fin (i + 1))
    (helig : (checkSeasonEligibility (some season)).isEligible = true) :
    (pool = [] →
      executeProfitSharing (some season) pool oracle =
        .noEligibleDonors "No eligible donors found"
          "No donors have made at least 5 donations to this season"
          season.donationCount ∧
      (executeProfitSharing (some season) pool oracle).success = false) ∧
    (pool ≠ [] → pool.length < SELECTED_DONORS_COUNT →
      executeProfitSharing (some season) pool oracle =
        .insufficientDonors "Insufficient eligible donors"
          ("Found only " ++ toString pool.length ++ " eligible donor(s), but " ++
            toString SELECTED_DONORS_COUNT ++ " are required")
          (pool.map fun d =>
            { fullName := d.donor.firstName ++ " " ++ d.donor.lastName
              email := d.donor.email
              donationCount := d.donationCount }) ∧
      (executeProfitSharing (some season) pool oracle).success = false) := by
  have hcond : ¬((checkSeasonEligibility (some season)).isEligible = false) := by
    rw [helig]; simp
  constructor
  · intro hnil
    subst hnil
    have e : executeProfitSharing (some season) [] oracle =
        ExecResult.noEligibleDonors "No eligible donors found"
          "No donors have made at least 5 donations to this season"
          season.donationCount := by
      simp only [executeProfitSharing]
      rw [if_neg hcond]
      rfl
    exact ⟨e, by rw [e]; rfl⟩
  · intro hne hlt
    have hlen0 : ¬(pool.length = 0) := fun hl => hne (List.length_eq_zero.mp hl)
    have e : executeProfitSharing (some season) pool oracle =
        ExecResult.insufficientDonors "Insufficient eligible donors"
          ("Found only " ++ toString pool.length ++ " eligible donor(s), but " ++
            toString SELECTED_DONORS_COUNT ++ " are required")
          (pool.map fun d =>
            { fullName := d.donor.firstName ++ " " ++ d.donor.lastName
              email := d.donor.email
              donationCount := d.donationCount }) := by
      simp only [executeProfitSharing]
      rw [if_neg hcond, if_neg hlen0, if_pos hlt]
    exact ⟨e, by rw [e]; rfl⟩

/-- C8 witness: the pool-gate theorem instantiated at an eligible season with
an empty pool and with a single-donor pool. -/
theorem executeProfitSharing_pool_failures_witness :
    (checkSeasonEligibility (some megaSeason)).isEligible = true ∧
    executeProfitSharing (some megaSeason) [] zeroOracle =
      .noEligibleDonors "No eligible donors found"
        "No donors have made at least 5 donations to this season" 40 ∧
    executeProfitSharing (some megaSeason) [donorAda] zeroOracle =
      .insufficientDonors "Insufficient eligible donors"
        "Found only 1 eligible donor(s), but 2 are required"
        [{ fullName := "Ada L", email := "ada@x.io", donationCount := 6 }] := by
  have helig : (checkSeasonEligibility (some megaSeason)).isEligible = true := by
    simp only [megaSeason, checkSeasonEligibility]
    rw [if_neg (by norm_num), if_neg (by norm_num), if_neg (by decide)]
  refine ⟨helig, ?_, ?_⟩
  · exact ((executeProfitSharing_pool_failures megaSeason [] zeroOracle helig).1 rfl).1
  · have e := ((executeProfitSharing_pool_failures megaSeason [donorAda] zeroOracle
      helig).2 (by simp) (by decide)).1
    rw [e]
    rfl

/-- Folding the always-zero agents summand changes nothing. -/
lemma foldl_agentsAmountOrZero (l : List ExecResult) :
    ∀ a : ℚ, l.foldl (fun s r => s + r.agentsAmountOrZero) a = a := by
  induction l with
  | nil => intro a; rfl
  | cons r t ih =>
    intro a
    rw [List.foldl_cons, show r.agentsAmountOrZero = 0 from rfl, add_zero]
    exact ih a

/-- Folding the always-zero stakeholders summand changes nothing. -/
lemma foldl_stakeholdersAmountOrZero (l : List ExecResult) :
    ∀ a : ℚ, l.foldl (fun s r => s + r.stakeholdersAmountOrZero) a = a := by
  induction l with
  | nil => intro a; rfl
  | cons r t ih =>
    intro a
    rw [List.foldl_cons, show r.stakeholdersAmountOrZero = 0 from rfl, add_zero]
    exact ih a

/-- Rounding zero gives zero. -/
lemma round2_zero : round2 0 = 0 := by
  norm_num [round2, jsRound, Rat.floor]

/-- C3 (code bug): `getProfitSharingSummary` sums
`vendorDistribution?.vendors.agents.amount || 0`, but the agents vendor object
has no `amount` field (its fields are `total`, `percentage`, `distribution`),
so the summary fields totalToAgents and totalToStakeholders are 0 for EVERY input;
in particular, for one successful season raising 1,000,000 the agents vendor
totals over the successes sum to 24,948.00, yet totalToAgents is 0, not the
2-decimal-rounded sum the claim describes.  (The partition counts and the
finalProfit sum do behave as claimed: successful = 1 and totalProfit =
49,896.00 here.) -/
theorem getProfitSharingSummary_amount_bug :
    (∀ envs : List SeasonEnv,
      (getProfitSharingSummary envs).1.totalToAgents = 0 ∧
      (getProfitSharingSummary envs).1.totalToStakeholders = 0) ∧
    (getProfitSharingSummary [megaEnv]).1.totalSeasons = 1 ∧
    (getProfitSharingSummary [megaEnv]).1.successful = 1 ∧
    (getProfitSharingSummary [megaEnv]).1.failed = 0 ∧
    (getProfitSharingSummary [megaEnv]).1.totalProfit = 49896 ∧
    ((getProfitSharingSummary [megaEnv]).2.1.foldl
      (fun s r => s + r.agentsVendorTotal) 0) = 24948 ∧
    (getProfitSharingSummary [megaEnv]).1.totalToAgents ≠
      round2 ((getProfitSharingSummary [megaEnv]).2.1.foldl
        (fun s r => s + r.agentsVendorTotal) 0) := by
  have huniv : ∀ envs : List SeasonEnv,
      (getProfitSharingSummary envs).1.totalToAgents = 0 ∧
      (getProfitSharingSummary envs).1.totalToStakeholders = 0 := by
    intro envs
    constructor
    · have e : (getProfitSharingSummary envs).1.totalToAgents =
          round2 (((envs.map fun e => executeProfitSharing e.season e.donors e.oracle).filter
            (fun r => r.success)).foldl (fun s r => s + r.agentsAmountOrZero) 0) := rfl
      rw [e, foldl_agentsAmountOrZero, round2_zero]
    · have e : (getProfitSharingSummary envs).1.totalToStakeholders =
          round2 (((envs.map fun e => executeProfitSharing e.season e.donors e.oracle).filter
            (fun r => r.success)).foldl (fun s r => s + r.stakeholdersAmountOrZero) 0) := rfl
      rw [e, foldl_stakeholdersAmountOrZero, round2_zero]
  have hfp : (calculateProfit 1000000).finalProfit = 49896 := by
    norm_num [calculateProfit, round2, jsRound, MULTIPLIERS_INITIAL, MULTIPLIERS_FIRST,
      MULTIPLIERS_SECOND, MULTIPLIERS_FINAL, Rat.floor]
  have helig : ¬((checkSeasonEligibility (some megaSeason)).isEligible = false) := by
    simp only [megaSeason, checkSeasonEligibility]
    rw [if_neg (by norm_num), if_neg (by norm_num), if_neg (by decide)]
    simp
  have hexec : executeProfitSharing (some megaSeason) [donorAda, donorBob] zeroOracle =
      ExecResult.ok 2 [donorAda, donorBob] (calculateProfit 1000000)
        (distributeToVendors (calculateProfit 1000000).finalProfit 1000000) := by
    simp only [executeProfitSharing]
    rw [if_neg helig, if_neg (by decide), if_neg (by decide)]
    rfl
  have hres : ([megaEnv].map fun e => executeProfitSharing e.season e.donors e.oracle) =
      [ExecResult.ok 2 [donorAda, donorBob] (calculateProfit 1000000)
        (distributeToVendors (calculateProfit 1000000).finalProfit 1000000)] := by
    simp only [List.map]
    rw [show megaEnv.season = some megaSeason from rfl,
      show megaEnv.donors = [donorAda, donorBob] from rfl,
      show megaEnv.oracle = zeroOracle from rfl, hexec]
  have hfilter : ([ExecResult.ok 2 [donorAda, donorBob] (calculateProfit 1000000)
      (distributeToVendors (calculateProfit 1000000).finalProfit 1000000)].filter
        (fun r => r.success)) =
      [ExecResult.ok 2 [donorAda, donorBob] (calculateProfit 1000000)
        (distributeToVendors (calculateProfit 1000000).finalProfit 1000000)] := rfl
  have hsucc : (getProfitSharingSummary [megaEnv]).2.1 =
      [ExecResult.ok 2 [donorAda, donorBob] (calculateProfit 1000000)
        (distributeToVendors (calculateProfit 1000000).finalProfit 1000000)] := by
    have e : (getProfitSharingSummary [megaEnv]).2.1 =
        (([megaEnv].map fun e => executeProfitSharing e.season e.donors e.oracle).filter
          (fun r => r.success)) := rfl
    rw [e, hres, hfilter]
  have hfold : ((getProfitSharingSummary [megaEnv]).2.1.foldl
      (fun s r => s + r.agentsVendorTotal) 0) = 24948 := by
    rw [hsucc, List.foldl_cons, List.foldl_nil, zero_add]
    have e : (ExecResult.ok 2 [donorAda, donorBob] (calculateProfit 1000000)
        (distributeToVendors (calculateProfit 1000000).finalProfit
          1000000)).agentsVendorTotal =
        (distributeToVendors (calculateProfit 1000000).finalProfit
          1000000).vendors.agents.total := rfl
    rw [e, hfp]
    have e2 : (distributeToVendors 49896 1000000).vendors.agents.total =
        round2 (49896 * VENDOR_SPLIT_AGENTS) := rfl
    rw [e2]
    norm_num [VENDOR_SPLIT_AGENTS, round2, jsRound, Rat.floor]
  refine ⟨huniv, rfl, ?_, ?_, ?_, hfold, ?_⟩
  · have e : (getProfitSharingSummary [megaEnv]).1.successful =
        (([megaEnv].map fun e => executeProfitSharing e.season e.donors e.oracle).filter
          (fun r => r.success)).length := rfl
    rw [e, hres, hfilter]
    rfl
  · have e : (getProfitSharingSummary [megaEnv]).1.failed =
        (([megaEnv].map fun e => executeProfitSharing e.season e.donors e.oracle).filter
          (fun r => !r.success)).length := rfl
    rw [e, hres]
    rfl
  · have e : (getProfitSharingSummary [megaEnv]).1.totalProfit =
        round2 ((([megaEnv].map fun e =>
          executeProfitSharing e.season e.donors e.oracle).filter
            (fun r => r.success)).foldl (fun s r => s + r.finalProfitOrZero) 0) := rfl
    rw [e, hres, hfilter, List.foldl_cons, List.foldl_nil, zero_add]
    have e2 : (ExecResult.ok 2 [donorAda, donorBob] (calculateProfit 1000000)
        (distributeToVendors (calculateProfit 1000000).finalProfit
          1000000)).finalProfitOrZero = (calculateProfit 1000000).finalProfit := rfl
    rw [e2, hfp]
    norm_num [round2, jsRound, Rat.floor]
  · rw [hfold, (huniv [megaEnv]).1]
    norm_num [round2, jsRound, Rat.floor]

end ProfitSharing
